import Mathlib

/-!
# TUbe-dl: a verified shallow embedding

Shallow embedding of `src/TUbe-dl.py` (version 0.1.0), a utility that
downloads a video or playlist from a session-authenticated portal.  The
embedding covers the resumable download engine (`resume_download`,
`download_video`), the progress-line geometry (`ProgressFormatter`) and
the per-item error containment of `main`'s download loop.

Modelling conventions:
* Python strings become Lean `String`s; slicing/repetition with possibly
  negative counts is modelled by `pyRepeat` / `pySliceTo`, matching
  Python's behaviour (`'x' * n` is empty for `n ≤ 0`, `s[:i]` counts
  from the end for negative `i`).
* Python `int()` on a float is truncation toward zero (`pyInt`); the
  float division `downloaded / content_size` is modelled exactly over ℚ.
* The filesystem, the HTTP response and the interactive prompt are an
  explicit environment (`Env`); `download_video` becomes a pure function
  from that environment to a trace (`DVResult`) recording the request
  headers, the open mode, the written chunks, the counters and the
  progress output.  A `ZeroDivisionError` or an HTTP error raised by
  `raise_for_status` appears as `Outcome.failed`.
-/

namespace TUbeDl

/-- `CHUNK_SIZE = 64*1024` from the source. -/
def CHUNK_SIZE : Nat := 64 * 1024

/-- `requests.codes.RANGE_NOT_SATISFIABLE`. -/
def RANGE_NOT_SATISFIABLE : Nat := 416

/-! ### Python string primitives -/

/-- Python string repetition `c * n`: a non-positive count yields the empty
string. -/
def pyRepeat (c : Char) (n : ℤ) : String := ⟨List.replicate n.toNat c⟩

/-- Python slice `s[:i]` with a possibly negative stop index (which counts
from the end of the string). -/
def pySliceTo (s : String) (i : ℤ) : String :=
  ⟨s.data.take (if 0 ≤ i then i.toNat else s.length - i.natAbs)⟩

/-- Python `int(q)` on a rational value: truncation toward zero. -/
def pyInt (q : ℚ) : ℤ := if 0 ≤ q then ⌊q⌋ else -⌊-q⌋

/-- Python format-spec right justification `{x:>wd}`: pad with spaces on the
left up to width `w`. -/
def pyRjust (w : ℕ) (s : String) : String := ⟨List.replicate (w - s.length) ' ' ++ s.data⟩

/-- Python `s.upper()`, character by character (the prompt only compares
the result against the ASCII strings `'Y'` and `'YES'`). -/
def pyUpper (s : String) : String := ⟨s.data.map Char.toUpper⟩

/-! ### ProgressFormatter -/

/-- `PROGRESS_OTHER_CHAR_COUNT = 7`: brackets, space, three percent digits
and the percent sign. -/
def PROGRESS_OTHER_CHAR_COUNT : ℕ := 7

/-- `PROGRESS_SIGN = '#'`. -/
def PROGRESS_SIGN : Char := '#'

/-- `NO_PROGRESS_SIGN = '-'`. -/
def NO_PROGRESS_SIGN : Char := '-'

/-- `_name_size = _progarea_size = int(_termwidth/2 - 1)`.  For a terminal
width `W ≥ 1` the Python expression (true division, then truncation toward
zero) equals `W / 2 - 1` in truncated natural arithmetic. -/
def name_size (termwidth : ℕ) : ℕ := termwidth / 2 - 1

/-- `_max_progress = _progarea_size - PROGRESS_OTHER_CHAR_COUNT`.  For
widths where the Python value would be negative the rendered bar is empty
either way, so truncated subtraction is faithful to the rendered output. -/
def max_progress (termwidth : ℕ) : ℕ := name_size termwidth - PROGRESS_OTHER_CHAR_COUNT

/-- `_spaces = ' ' * (2 + _termwidth % 2)`. -/
def spaces (termwidth : ℕ) : String := pyRepeat ' ' (2 + (termwidth % 2 : ℕ))

/-- The `name` property setter: truncate to `nsize` with a trailing ellipsis
when `len(value) - 3 > nsize`, otherwise append `nsize - len(value)` spaces
(no spaces when that difference is negative). -/
def set_name (nsize : ℕ) (value : String) : String :=
  if (nsize : ℤ) < (value.length : ℤ) - 3 then
    pySliceTo value ((nsize : ℤ) - 3) ++ "..."
  else
    value ++ pyRepeat ' ' ((nsize : ℤ) - (value.length : ℤ))

/-- A `ProgressFormatter(name)` instance: the terminal width sampled at
class definition time and the name passed to the constructor. -/
structure ProgressFormatter where
  termwidth : ℕ
  rawName : String
deriving DecidableEq, Repr

/-- The `_name` attribute produced by the `name` setter. -/
def ProgressFormatter.storedName (pf : ProgressFormatter) : String :=
  set_name (name_size pf.termwidth) pf.rawName

/-- `int(self._max_progress * progress) * PROGRESS_SIGN`: the number of
hash marks actually printed (`'#' * n` clamps negative `n` to none). -/
def hash_count (maxp : ℕ) (progress : ℚ) : ℕ := (pyInt ((maxp : ℚ) * progress)).toNat

/-- `NO_PROGRESS_SIGN * (self._max_progress - len(progress_bar))`: the
number of dashes printed. -/
def dash_count (maxp : ℕ) (progress : ℚ) : ℕ :=
  ((maxp : ℤ) - (hash_count maxp progress : ℤ)).toNat

/-- The bar interior: hashes then dashes. -/
def progress_bar (maxp : ℕ) (progress : ℚ) : String :=
  ⟨List.replicate (hash_count maxp progress) PROGRESS_SIGN ++
    List.replicate (dash_count maxp progress) NO_PROGRESS_SIGN⟩

/-- `f'{int(progress * 100):>3d}'`. -/
def percent_str (progress : ℚ) : String := pyRjust 3 (toString (pyInt (progress * 100)))

/-- `PROGRESS_TEMPLATE = '[{progress}] {percent}%'` instantiated with the
bar and the percent string. -/
def progress_field (maxp : ℕ) (progress : ℚ) : String :=
  "[" ++ progress_bar maxp progress ++ "] " ++ percent_str progress ++ "%"

/-- `format_progress(self, progress)`. -/
def ProgressFormatter.format_progress (pf : ProgressFormatter) (progress : ℚ) : String :=
  pf.storedName ++ spaces pf.termwidth ++ progress_field (max_progress pf.termwidth) progress

/-- `format_msg(self, msg)`. -/
def ProgressFormatter.format_msg (pf : ProgressFormatter) (msg : String) : String :=
  pf.storedName ++ spaces pf.termwidth ++ msg

/-! ### The download engine -/

/-- The HTTP response to the ranged GET, as `download_video` observes it:
status code, reason phrase, the `Content-Length` and `Accept-Ranges`
headers, and the body as the chunk sequence `iter_content(CHUNK_SIZE)`
yields (each chunk a byte list of at most `CHUNK_SIZE` bytes). -/
structure Resp where
  status : ℕ
  reason : String
  contentLength : Option ℕ
  acceptRanges : Option String
  chunks : List (List ℕ)
deriving DecidableEq, Repr

/-- The environment one `download_video` call runs in: the size of the
destination file (`none` when `os.path.getsize` raises
`FileNotFoundError`), the server's response to the ranged GET, and the
line the user would type at the confirmation prompt. -/
structure Env where
  fileSize : Option ℕ
  resp : Resp
  promptAnswer : String
deriving DecidableEq, Repr

/-- An exception escaping `download_video`: `requests.HTTPError` from
`raise_for_status`, or `ZeroDivisionError` from `print_progress` when the
declared content length is `0`. -/
inductive DLError where
  | httpError (status : ℕ) (reason : String)
  | zeroDivisionError
deriving DecidableEq, Repr

/-- How one `download_video` call ends: return after the 416 check or the
already-complete check (`alreadyComplete`), return from the declined
prompt (`skippedByUser`), fall off the end (`completed`), or raise
(`failed`). -/
inductive Outcome where
  | alreadyComplete
  | skippedByUser
  | completed
  | failed (e : DLError)
deriving DecidableEq, Repr

/-- Observable trace of one `download_video` call. -/
structure DVResult where
  /-- `position`: the resume offset put into the `Range` header. -/
  rangeStart : ℕ
  /-- The headers of the GET issued by `resume_download`. -/
  requestHeaders : List (String × String)
  /-- `filemode` as set by the stat step (lines 93-100), before the
  `Accept-Ranges` interpretation. -/
  initialMode : String
  /-- How the call ended. -/
  outcome : Outcome
  /-- `some mode` iff `open(filename, filemode)` was reached, with the
  mode used there. -/
  openedMode : Option String
  /-- The chunks written to the file, in order. -/
  writes : List (List ℕ)
  /-- The value of `downloaded` right after the read loop. -/
  downloadedAfterLoop : ℕ
  /-- The value of `downloaded` when the call ends (after the clamp to
  `content_size` when that runs). -/
  finalDownloaded : ℕ
  /-- Whether the user was asked the overwrite question. -/
  prompted : Bool
  /-- Whether `print_progress_timer.start()` ran. -/
  timerStarted : Bool
  /-- Whether `print_progress_timer.cancel()` ran. -/
  timerCancelled : Bool
  /-- The final progress line printed after the clamp, when that runs. -/
  finalProgressLine : Option String
  /-- Whether the trailing newline was written. -/
  trailingNewline : Bool
deriving DecidableEq, Repr

/-- `resume_download(fileurl, resume_byte_pos, headers)`: sets
`headers['Range'] = f'bytes={resume_byte_pos}-'` on the headers passed in
and issues the GET with them. -/
def resume_download_headers (resume_byte_pos : ℕ) (headers : List (String × String)) :
    List (String × String) :=
  headers ++ [("Range", "bytes=" ++ toString resume_byte_pos ++ "-")]

/-- The stat step of `download_video`: `filemode` is `'ab'` unless
`os.path.getsize` raises `FileNotFoundError`, in which case it is `'wb'`. -/
def initial_filemode (fileSize : Option ℕ) : String :=
  match fileSize with
  | none => "wb"
  | some _ => "ab"

/-- The stat step of `download_video`: the resume `position` is the file
size, or `0` when the file is absent. -/
def resume_position (fileSize : Option ℕ) : ℕ :=
  match fileSize with
  | none => 0
  | some k => k

/-- `r.raise_for_status()` raises iff the status code is 4xx or 5xx. -/
def raises_for_status (status : ℕ) : Prop := 400 ≤ status ∧ status < 600

instance (status : ℕ) : Decidable (raises_for_status status) := by
  unfold raises_for_status; infer_instance

/-- The streaming half of `download_video` (lines 130-167): progress
setup, the open/read/write loop, and the completion actions.  `filemode`
is the write mode in force when `open` is reached and `base` carries the
trace fields already determined. -/
def stream_phase (pf : ProgressFormatter) (quiet : Bool) (content_size : Option ℕ)
    (filemode : String) (chunks : List (List ℕ)) (base : DVResult) : DVResult :=
  match content_size with
  | none =>
    -- `print_progress` never runs: 'Downloading...' is printed instead
    -- (when not quiet) and the completion block is skipped.
    { base with
      outcome := .completed
      openedMode := some filemode
      writes := chunks
      downloadedAfterLoop := CHUNK_SIZE * chunks.length
      finalDownloaded := CHUNK_SIZE * chunks.length }
  | some c =>
    if quiet then
      -- No progress output at all; the completion block is skipped.
      { base with
        outcome := .completed
        openedMode := some filemode
        writes := chunks
        downloadedAfterLoop := CHUNK_SIZE * chunks.length
        finalDownloaded := CHUNK_SIZE * chunks.length }
    else if c = 0 then
      -- The initial `print_progress()` evaluates `0 / 0`.
      { base with outcome := .failed .zeroDivisionError }
    else
      { base with
        outcome := .completed
        openedMode := some filemode
        writes := chunks
        downloadedAfterLoop := CHUNK_SIZE * chunks.length
        timerStarted := true
        timerCancelled := true
        finalDownloaded := c
        finalProgressLine := some (pf.format_progress ((c : ℚ) / (c : ℚ)))
        trailingNewline := true }

/-- The trace of a `download_video` call right after the stat step and
the GET, before the response is interpreted: the resume position, the
request headers and the initial write mode are fixed, nothing has been
opened, written or printed yet. -/
def dvBase (cookie : String) (env : Env) : DVResult :=
  { rangeStart := resume_position env.fileSize
    requestHeaders := resume_download_headers (resume_position env.fileSize) [("Cookie", cookie)]
    initialMode := initial_filemode env.fileSize
    outcome := .completed
    openedMode := none
    writes := []
    downloadedAfterLoop := 0
    finalDownloaded := 0
    prompted := false
    timerStarted := false
    timerCancelled := false
    finalProgressLine := none
    trailingNewline := false }

/-- `download_video(vidurl, filename, cookie, prog_formatter, force,
quiet)` as a pure function of the environment. -/
def download_video (cookie : String) (pf : ProgressFormatter) (force quiet : Bool)
    (env : Env) : DVResult :=
  let r := env.resp
  let base := dvBase cookie env
  if r.status = RANGE_NOT_SATISFIABLE then
    { base with outcome := .alreadyComplete }
  else if raises_for_status r.status then
    { base with outcome := .failed (.httpError r.status r.reason) }
  else if r.acceptRanges = none ∨ r.acceptRanges = some "none" then
    -- `position == content_size` is false in Python whenever the header
    -- is absent (`int == None`), so it holds iff the length is declared
    -- and equals `position`.
    if r.contentLength = some (resume_position env.fileSize) then
      { base with outcome := .alreadyComplete }
    else if force then
      stream_phase pf quiet r.contentLength "wb" r.chunks base
    else if pyUpper env.promptAnswer = "Y" ∨ pyUpper env.promptAnswer = "YES" then
      stream_phase pf quiet r.contentLength "wb" r.chunks { base with prompted := true }
    else
      { base with outcome := .skippedByUser, prompted := true }
  else
    stream_phase pf quiet r.contentLength (initial_filemode env.fileSize) r.chunks base

/-- The destination file's bytes after the call, given its bytes before:
untouched when the file was never opened, truncated-then-written for mode
`'wb'`, appended-to for mode `'ab'`. -/
def final_file (initialBytes : List ℕ) (res : DVResult) : List ℕ :=
  match res.openedMode with
  | none => initialBytes
  | some m => (if m = "ab" then initialBytes else []) ++ res.writes.flatten

/-! ### The download loop of `main` -/

/-- `str(e)` for an exception escaping `download_video`.  For
`requests.HTTPError` the message starts with the status code and the
reason phrase (the trailing `for url: ...` part is elided since the model
does not carry the url). -/
def DLError.message : DLError → String
  | .httpError status reason =>
      toString status ++ (if status < 500 then " Client Error: " else " Server Error: ") ++ reason
  | .zeroDivisionError => "division by zero"

/-- The line `main` writes to standard error when one item fails. -/
def error_line (title : String) (e : DLError) : String :=
  "Error downloading \"" ++ title ++ "\": " ++ e.message ++ "\n"

/-- The `for video in videos` loop of `main`: each item is downloaded with
a fresh `ProgressFormatter(name)`; an exception escaping `download_video`
is caught at the item boundary, printed to standard error, and the loop
moves on.  Returns the standard-error lines and the per-item traces. -/
def process_videos (cookie : String) (termwidth : ℕ) (force quiet : Bool) :
    List (String × Env) → List String × List DVResult
  | [] => ([], [])
  | (title, env) :: rest =>
    let res := download_video cookie ⟨termwidth, title⟩ force quiet env
    let tail := process_videos cookie termwidth force quiet rest
    ((match res.outcome with
      | .failed e => [error_line title e]
      | _ => []) ++ tail.1,
     res :: tail.2)

/-- After the loop, `main` falls off the end: since every per-item
exception is caught inside the loop, the process exit code is `0`
whatever the items' outcomes were. -/
def main_loop (cookie : String) (termwidth : ℕ) (force quiet : Bool)
    (videos : List (String × Env)) : List String × List DVResult × ℕ :=
  let p := process_videos cookie termwidth force quiet videos
  (p.1, p.2, 0)

/-! ### Projection lemmas

The fields fixed before the response is interpreted are unchanged by the
streaming phase and by every branch of `download_video`. -/

theorem stream_phase_rangeStart (pf : ProgressFormatter) (quiet : Bool) (cs : Option ℕ)
    (fm : String) (chunks : List (List ℕ)) (base : DVResult) :
    (stream_phase pf quiet cs fm chunks base).rangeStart = base.rangeStart := by
  cases cs <;> simp only [stream_phase] <;> split_ifs <;> rfl

theorem stream_phase_requestHeaders (pf : ProgressFormatter) (quiet : Bool) (cs : Option ℕ)
    (fm : String) (chunks : List (List ℕ)) (base : DVResult) :
    (stream_phase pf quiet cs fm chunks base).requestHeaders = base.requestHeaders := by
  cases cs <;> simp only [stream_phase] <;> split_ifs <;> rfl

theorem stream_phase_initialMode (pf : ProgressFormatter) (quiet : Bool) (cs : Option ℕ)
    (fm : String) (chunks : List (List ℕ)) (base : DVResult) :
    (stream_phase pf quiet cs fm chunks base).initialMode = base.initialMode := by
  cases cs <;> simp only [stream_phase] <;> split_ifs <;> rfl

theorem stream_phase_prompted (pf : ProgressFormatter) (quiet : Bool) (cs : Option ℕ)
    (fm : String) (chunks : List (List ℕ)) (base : DVResult) :
    (stream_phase pf quiet cs fm chunks base).prompted = base.prompted := by
  cases cs <;> simp only [stream_phase] <;> split_ifs <;> rfl

theorem download_video_rangeStart (cookie : String) (pf : ProgressFormatter)
    (force quiet : Bool) (env : Env) :
    (download_video cookie pf force quiet env).rangeStart = resume_position env.fileSize := by
  simp only [download_video]
  split_ifs <;> simp [stream_phase_rangeStart, dvBase]

theorem download_video_initialMode (cookie : String) (pf : ProgressFormatter)
    (force quiet : Bool) (env : Env) :
    (download_video cookie pf force quiet env).initialMode = initial_filemode env.fileSize := by
  simp only [download_video]
  split_ifs <;> simp [stream_phase_initialMode, dvBase]

theorem download_video_requestHeaders (cookie : String) (pf : ProgressFormatter)
    (force quiet : Bool) (env : Env) :
    (download_video cookie pf force quiet env).requestHeaders =
      resume_download_headers (resume_position env.fileSize) [("Cookie", cookie)] := by
  simp only [download_video]
  split_ifs <;> simp [stream_phase_requestHeaders, dvBase]

theorem stream_phase_opens (pf : ProgressFormatter) (quiet : Bool) (cs : Option ℕ)
    (fm : String) (chunks : List (List ℕ)) (base : DVResult) (hc : cs ≠ some 0) :
    (stream_phase pf quiet cs fm chunks base).openedMode = some fm ∧
    (stream_phase pf quiet cs fm chunks base).writes = chunks ∧
    (stream_phase pf quiet cs fm chunks base).downloadedAfterLoop =
      CHUNK_SIZE * chunks.length := by
  cases cs with
  | none => exact ⟨rfl, rfl, rfl⟩
  | some c =>
    have hc0 : ¬(c = 0) := fun h => hc (by rw [h])
    by_cases hq : quiet <;> simp [stream_phase, hq, hc0]

theorem stream_phase_openedMode_cases (pf : ProgressFormatter) (quiet : Bool)
    (cs : Option ℕ) (fm : String) (chunks : List (List ℕ)) (base : DVResult) :
    (stream_phase pf quiet cs fm chunks base).openedMode = some fm ∨
    (stream_phase pf quiet cs fm chunks base).openedMode = base.openedMode := by
  cases cs with
  | none => exact Or.inl rfl
  | some c => simp only [stream_phase]; split_ifs <;> simp

theorem stream_phase_counter (pf : ProgressFormatter) (quiet : Bool) (cs : Option ℕ)
    (fm : String) (chunks : List (List ℕ)) (base : DVResult)
    (hb : base.downloadedAfterLoop = CHUNK_SIZE * base.writes.length) :
    (stream_phase pf quiet cs fm chunks base).downloadedAfterLoop =
      CHUNK_SIZE * (stream_phase pf quiet cs fm chunks base).writes.length := by
  cases cs with
  | none => simp [stream_phase]
  | some c => simp only [stream_phase]; split_ifs <;> simpa

theorem stream_phase_opened_writes (pf : ProgressFormatter) (quiet : Bool) (cs : Option ℕ)
    (fm : String) (chunks : List (List ℕ)) (base : DVResult)
    (hb : base.openedMode = none) :
    (stream_phase pf quiet cs fm chunks base).openedMode.isSome →
    (stream_phase pf quiet cs fm chunks base).writes = chunks := by
  cases cs with
  | none => intro h; rfl
  | some c => simp only [stream_phase]; split_ifs <;> simp [hb]

theorem stream_phase_progress (pf : ProgressFormatter) (c : ℕ) (fm : String)
    (chunks : List (List ℕ)) (base : DVResult) (hc : c ≠ 0) :
    stream_phase pf false (some c) fm chunks base =
      { base with
        outcome := .completed
        openedMode := some fm
        writes := chunks
        downloadedAfterLoop := CHUNK_SIZE * chunks.length
        timerStarted := true
        timerCancelled := true
        finalDownloaded := c
        finalProgressLine := some (pf.format_progress ((c : ℚ) / (c : ℚ)))
        trailingNewline := true } := by
  simp [stream_phase, hc]

/-! ### Claim theorems: the transfer planner -/

/-- C1: on every call of `download_video`, an absent destination file gives
`existing_bytes = 0` with the overwrite/create mode, a present one gives
`existing_bytes` equal to its size with the append mode, and in both cases
the GET carries the session cookie and a `Range` header requesting bytes
from `existing_bytes` on — so for a partial file of size `k` the requested
offset is `k`. -/
theorem C1_range_request_and_mode (cookie : String) (pf : ProgressFormatter)
    (force quiet : Bool) (env : Env) :
    (env.fileSize = none →
      (download_video cookie pf force quiet env).rangeStart = 0 ∧
      (download_video cookie pf force quiet env).initialMode = "wb") ∧
    (∀ k, env.fileSize = some k →
      (download_video cookie pf force quiet env).rangeStart = k ∧
      (download_video cookie pf force quiet env).initialMode = "ab") ∧
    (download_video cookie pf force quiet env).requestHeaders =
      [("Cookie", cookie),
       ("Range",
        "bytes=" ++ toString (download_video cookie pf force quiet env).rangeStart ++ "-")] := by
  refine ⟨?_, ?_, ?_⟩
  · intro h
    rw [download_video_rangeStart, download_video_initialMode, h]
    exact ⟨rfl, rfl⟩
  · intro k h
    rw [download_video_rangeStart, download_video_initialMode, h]
    exact ⟨rfl, rfl⟩
  · rw [download_video_requestHeaders, download_video_rangeStart]
    rfl

/-- Witness for C1 at a concrete partial file of size 5. -/
theorem C1_range_request_and_mode_witness :
    (download_video "sid" ⟨80, "t"⟩ false false
        ⟨some 5, ⟨206, "Partial Content", some 10, some "bytes", []⟩, ""⟩).rangeStart = 5 ∧
    (download_video "sid" ⟨80, "t"⟩ false false
        ⟨some 5, ⟨206, "Partial Content", some 10, some "bytes", []⟩, ""⟩).initialMode = "ab" :=
  (C1_range_request_and_mode "sid" ⟨80, "t"⟩ false false
    ⟨some 5, ⟨206, "Partial Content", some 10, some "bytes", []⟩, ""⟩).2.1 5 rfl

/-- C2: a 416 response ends the call with `AlreadyComplete` and no file
open and no write; any other 4xx/5xx status makes `raise_for_status` raise
`HTTPError` carrying the status and reason before the file is opened, so
again no write occurs. -/
theorem C2_non_success_no_write (cookie : String) (pf : ProgressFormatter)
    (force quiet : Bool) (env : Env) :
    (env.resp.status = RANGE_NOT_SATISFIABLE →
      (download_video cookie pf force quiet env).outcome = .alreadyComplete ∧
      (download_video cookie pf force quiet env).openedMode = none ∧
      (download_video cookie pf force quiet env).writes = []) ∧
    (raises_for_status env.resp.status → env.resp.status ≠ RANGE_NOT_SATISFIABLE →
      (download_video cookie pf force quiet env).outcome =
        .failed (.httpError env.resp.status env.resp.reason) ∧
      (download_video cookie pf force quiet env).openedMode = none ∧
      (download_video cookie pf force quiet env).writes = []) := by
  constructor
  · intro h
    simp [download_video, h, dvBase]
  · intro hr hne
    simp [download_video, hne, hr, dvBase]

/-- Witness for C2: a 404 response fails with no write, a 416 response is
already complete. -/
theorem C2_non_success_no_write_witness :
    ((download_video "sid" ⟨80, "t"⟩ false false
        ⟨some 5, ⟨404, "Not Found", none, none, []⟩, ""⟩).outcome =
      .failed (.httpError 404 "Not Found") ∧
     (download_video "sid" ⟨80, "t"⟩ false false
        ⟨some 5, ⟨404, "Not Found", none, none, []⟩, ""⟩).openedMode = none ∧
     (download_video "sid" ⟨80, "t"⟩ false false
        ⟨some 5, ⟨404, "Not Found", none, none, []⟩, ""⟩).writes = []) ∧
    (download_video "sid" ⟨80, "t"⟩ false false
        ⟨some 5, ⟨416, "Range Not Satisfiable", none, none, []⟩, ""⟩).outcome =
      .alreadyComplete :=
  ⟨(C2_non_success_no_write "sid" ⟨80, "t"⟩ false false
      ⟨some 5, ⟨404, "Not Found", none, none, []⟩, ""⟩).2 (by decide) (by decide),
   ((C2_non_success_no_write "sid" ⟨80, "t"⟩ false false
      ⟨some 5, ⟨416, "Range Not Satisfiable", none, none, []⟩, ""⟩).1 rfl).1⟩

/-- C3: a successful response without range support whose declared content
length equals `existing_bytes` exactly ends the call with
`AlreadyComplete`, the file never opened and nothing written. -/
theorem C3_no_range_already_complete (cookie : String) (pf : ProgressFormatter)
    (force quiet : Bool) (env : Env)
    (hok : env.resp.status < 400)
    (har : env.resp.acceptRanges = none ∨ env.resp.acceptRanges = some "none")
    (heq : env.resp.contentLength = some (resume_position env.fileSize)) :
    (download_video cookie pf force quiet env).outcome = .alreadyComplete ∧
    (download_video cookie pf force quiet env).openedMode = none ∧
    (download_video cookie pf force quiet env).writes = [] := by
  have h416 : ¬(env.resp.status = RANGE_NOT_SATISFIABLE) := by
    intro h
    rw [h] at hok
    simp [RANGE_NOT_SATISFIABLE] at hok
  have hr : ¬raises_for_status env.resp.status := by
    rintro ⟨h1, -⟩
    omega
  rcases har with ha | ha <;> simp [download_video, h416, hr, ha, heq, dvBase]

/-- Witness for C3: a whole 1 MiB file with range support not advertised. -/
theorem C3_no_range_already_complete_witness :
    (download_video "sid" ⟨80, "t"⟩ false false
        ⟨some 1048576, ⟨200, "OK", some 1048576, none, []⟩, ""⟩).outcome =
      .alreadyComplete ∧
    (download_video "sid" ⟨80, "t"⟩ false false
        ⟨some 1048576, ⟨200, "OK", some 1048576, none, []⟩, ""⟩).openedMode = none ∧
    (download_video "sid" ⟨80, "t"⟩ false false
        ⟨some 1048576, ⟨200, "OK", some 1048576, none, []⟩, ""⟩).writes = [] :=
  C3_no_range_already_complete "sid" ⟨80, "t"⟩ false false
    ⟨some 1048576, ⟨200, "OK", some 1048576, none, []⟩, ""⟩
    (by decide) (Or.inl rfl) rfl

/-- C4: on a successful response without range support whose declared
length differs from `existing_bytes`, the write mode switches to
overwrite (whenever the file is opened at all it is opened `'wb'`);
without `force` the user is prompted, and declining ends the call with
`SkippedByUser`, the file never opened, nothing written and the partial
bytes untouched. -/
theorem C4_no_range_prompt_decline (cookie : String) (pf : ProgressFormatter)
    (quiet : Bool) (env : Env) (b : List ℕ)
    (hok : env.resp.status < 400)
    (har : env.resp.acceptRanges = none ∨ env.resp.acceptRanges = some "none")
    (hne : ¬(env.resp.contentLength = some (resume_position env.fileSize))) :
    (∀ force,
      (download_video cookie pf force quiet env).openedMode = none ∨
      (download_video cookie pf force quiet env).openedMode = some "wb") ∧
    (download_video cookie pf false quiet env).prompted = true ∧
    (¬(pyUpper env.promptAnswer = "Y") → ¬(pyUpper env.promptAnswer = "YES") →
      (download_video cookie pf false quiet env).outcome = .skippedByUser ∧
      (download_video cookie pf false quiet env).openedMode = none ∧
      (download_video cookie pf false quiet env).writes = [] ∧
      final_file b (download_video cookie pf false quiet env) = b) := by
  have h416 : ¬(env.resp.status = RANGE_NOT_SATISFIABLE) := by
    intro h
    rw [h] at hok
    simp [RANGE_NOT_SATISFIABLE] at hok
  have hr : ¬raises_for_status env.resp.status := by
    rintro ⟨h1, -⟩
    omega
  refine ⟨?_, ?_, ?_⟩
  · intro force
    by_cases hf : force = true
    · have hred : download_video cookie pf force quiet env =
          stream_phase pf quiet env.resp.contentLength "wb" env.resp.chunks
            (dvBase cookie env) := by
        rcases har with ha | ha <;> simp [download_video, h416, hr, ha, hne, hf]
      rw [hred]
      rcases stream_phase_openedMode_cases pf quiet env.resp.contentLength "wb"
          env.resp.chunks (dvBase cookie env) with h | h
      · exact Or.inr h
      · exact Or.inl (by rw [h]; rfl)
    · by_cases hy : pyUpper env.promptAnswer = "Y" ∨ pyUpper env.promptAnswer = "YES"
      · have hred : download_video cookie pf force quiet env =
            stream_phase pf quiet env.resp.contentLength "wb" env.resp.chunks
              { dvBase cookie env with prompted := true } := by
          rcases har with ha | ha <;> simp [download_video, h416, hr, ha, hne, hf, hy]
        rw [hred]
        rcases stream_phase_openedMode_cases pf quiet env.resp.contentLength "wb"
            env.resp.chunks { dvBase cookie env with prompted := true } with h | h
        · exact Or.inr h
        · exact Or.inl (by rw [h]; rfl)
      · have hred : download_video cookie pf force quiet env =
            { dvBase cookie env with outcome := .skippedByUser, prompted := true } := by
          rcases har with ha | ha <;> simp [download_video, h416, hr, ha, hne, hf, hy]
        rw [hred]
        exact Or.inl rfl
  · by_cases hy : pyUpper env.promptAnswer = "Y" ∨ pyUpper env.promptAnswer = "YES"
    · have hred : download_video cookie pf false quiet env =
          stream_phase pf quiet env.resp.contentLength "wb" env.resp.chunks
            { dvBase cookie env with prompted := true } := by
        rcases har with ha | ha <;> simp [download_video, h416, hr, ha, hne, hy]
      rw [hred, stream_phase_prompted]
    · have hred : download_video cookie pf false quiet env =
          { dvBase cookie env with outcome := .skippedByUser, prompted := true } := by
        rcases har with ha | ha <;> simp [download_video, h416, hr, ha, hne, hy]
      rw [hred]
  · intro hny hnyes
    have hy : ¬(pyUpper env.promptAnswer = "Y" ∨ pyUpper env.promptAnswer = "YES") := by
      rintro (h | h)
      · exact hny h
      · exact hnyes h
    have hred : download_video cookie pf false quiet env =
        { dvBase cookie env with outcome := .skippedByUser, prompted := true } := by
      rcases har with ha | ha <;> simp [download_video, h416, hr, ha, hne, hy]
    rw [hred]
    exact ⟨rfl, rfl, rfl, rfl⟩

/-- Witness for C4: a 512-byte partial file, no range support, the user
answers `n`. -/
theorem C4_no_range_prompt_decline_witness :
    (download_video "sid" ⟨80, "t"⟩ false false
        ⟨some 512, ⟨200, "OK", some 1024, none, [[7]]⟩, "n"⟩).outcome = .skippedByUser ∧
    (download_video "sid" ⟨80, "t"⟩ false false
        ⟨some 512, ⟨200, "OK", some 1024, none, [[7]]⟩, "n"⟩).openedMode = none ∧
    (download_video "sid" ⟨80, "t"⟩ false false
        ⟨some 512, ⟨200, "OK", some 1024, none, [[7]]⟩, "n"⟩).writes = [] ∧
    final_file [3, 4] (download_video "sid" ⟨80, "t"⟩ false false
        ⟨some 512, ⟨200, "OK", some 1024, none, [[7]]⟩, "n"⟩) = [3, 4] :=
  (C4_no_range_prompt_decline "sid" ⟨80, "t"⟩ false
      ⟨some 512, ⟨200, "OK", some 1024, none, [[7]]⟩, "n"⟩ [3, 4]
      (by decide) (Or.inl rfl) (by decide)).2.2 (by decide) (by decide)

end TUbeDl

namespace TUbeDl

/-- `percent_str` at fraction `1` renders exactly `100`. -/
theorem percent_str_one : percent_str 1 = "100" := by
  have h : pyInt (1 * 100) = 100 := by
    rw [pyInt, if_pos (by norm_num)]
    norm_num
  rw [percent_str, h]
  decide

/-- C5 counterexample: a successful (200) response advertising range
support (`Accept-Ranges: bytes`) over a pre-existing file, but declaring
`Content-Length: 0` while progress display is enabled, never opens the
file at all — the initial `print_progress()` call divides by the zero
content length and the `ZeroDivisionError` aborts the item before
`open`.  So the claim "for every successful response with range support
the destination file is opened in append mode" is false as stated. -/
theorem C5_zero_length_counterexample :
    (download_video "sid" ⟨80, "t"⟩ false false
        ⟨some 5, ⟨200, "OK", some 0, some "bytes", [[1]]⟩, ""⟩).openedMode ≠ some "ab" ∧
    (download_video "sid" ⟨80, "t"⟩ false false
        ⟨some 5, ⟨200, "OK", some 0, some "bytes", [[1]]⟩, ""⟩).outcome =
      .failed .zeroDivisionError := by
  decide

/-- C5 (amended): for every successful response whose `Accept-Ranges`
header is present with a value other than `none` and whose declared
content length is not exactly `0`, the destination file is opened in
append mode based solely on that header and the file's prior existence —
the status code is never consulted (the theorem holds for every status
below 400, in particular for a plain 200), so even a 200 response
carrying the entire body is appended after the existing bytes of a
pre-existing file. -/
theorem C5_append_mode_ignores_status (cookie : String) (pf : ProgressFormatter)
    (force quiet : Bool) (env : Env) (k : ℕ) (v : String) (b : List ℕ)
    (hok : env.resp.status < 400)
    (har : env.resp.acceptRanges = some v) (hv : ¬(v = "none"))
    (hfile : env.fileSize = some k)
    (hc : ¬(env.resp.contentLength = some 0)) :
    (download_video cookie pf force quiet env).openedMode = some "ab" ∧
    (download_video cookie pf force quiet env).writes = env.resp.chunks ∧
    final_file b (download_video cookie pf force quiet env) =
      b ++ env.resp.chunks.flatten := by
  have h416 : ¬(env.resp.status = RANGE_NOT_SATISFIABLE) := by
    intro h
    rw [h] at hok
    simp [RANGE_NOT_SATISFIABLE] at hok
  have hr : ¬raises_for_status env.resp.status := by
    rintro ⟨h1, -⟩
    omega
  have hmode : initial_filemode env.fileSize = "ab" := by rw [hfile]; rfl
  have hred : download_video cookie pf force quiet env =
      stream_phase pf quiet env.resp.contentLength (initial_filemode env.fileSize)
        env.resp.chunks (dvBase cookie env) := by
    simp [download_video, h416, hr, har, hv]
  rw [hmode] at hred
  obtain ⟨h1, h2, -⟩ := stream_phase_opens pf quiet env.resp.contentLength
    "ab" env.resp.chunks (dvBase cookie env) hc
  refine ⟨?_, ?_, ?_⟩
  · rw [hred]; exact h1
  · rw [hred]; exact h2
  · rw [hred]
    simp [final_file, h1, h2]

/-- Witness for C5 (amended): existing 512-byte file, server answers 200
(not 206) with `Accept-Ranges: bytes` — the body is appended anyway. -/
theorem C5_append_mode_ignores_status_witness :
    (download_video "sid" ⟨80, "t"⟩ false true
        ⟨some 512, ⟨200, "OK", some 1024, some "bytes", [[7], [8]]⟩, ""⟩).openedMode =
      some "ab" ∧
    (download_video "sid" ⟨80, "t"⟩ false true
        ⟨some 512, ⟨200, "OK", some 1024, some "bytes", [[7], [8]]⟩, ""⟩).writes =
      [[7], [8]] ∧
    final_file [3, 4] (download_video "sid" ⟨80, "t"⟩ false true
        ⟨some 512, ⟨200, "OK", some 1024, some "bytes", [[7], [8]]⟩, ""⟩) =
      [3, 4] ++ [7, 8] :=
  C5_append_mode_ignores_status "sid" ⟨80, "t"⟩ false true
    ⟨some 512, ⟨200, "OK", some 1024, some "bytes", [[7], [8]]⟩, ""⟩ 512 "bytes" [3, 4]
    (by decide) rfl (by decide) rfl (by decide)

/-- C6: the read loop increments `downloaded` by the requested chunk size
`CHUNK_SIZE`, not by the bytes actually received: after the loop the
counter always equals `CHUNK_SIZE` times the number of chunks written;
every chunk the response yields is written; and on a short final chunk
the counter strictly exceeds the declared total. -/
theorem C6_counter_requested_bytes (cookie : String) (pf : ProgressFormatter)
    (force quiet : Bool) (env : Env) :
    (download_video cookie pf force quiet env).downloadedAfterLoop =
      CHUNK_SIZE * (download_video cookie pf force quiet env).writes.length ∧
    ((download_video cookie pf force quiet env).openedMode.isSome →
      (download_video cookie pf force quiet env).writes = env.resp.chunks) ∧
    (∃ env0 : Env, ∃ total : ℕ,
      env0.resp.contentLength = some total ∧
      env0.resp.chunks.flatten.length < CHUNK_SIZE * env0.resp.chunks.length ∧
      (download_video cookie pf force quiet env0).downloadedAfterLoop > total) := by
  refine ⟨?_, ?_, ?_⟩
  · simp only [download_video]
    split_ifs <;>
      first
        | (apply stream_phase_counter; rfl)
        | rfl
  · simp only [download_video]
    split_ifs <;>
      first
        | (apply stream_phase_opened_writes; rfl)
        | (intro h; simp [dvBase] at h)
  · refine ⟨⟨none, ⟨200, "OK", some 3, some "bytes", [[9, 9, 9]]⟩, ""⟩, 3, rfl,
      by decide, ?_⟩
    have hred : download_video cookie pf force quiet
        ⟨none, ⟨200, "OK", some 3, some "bytes", [[9, 9, 9]]⟩, ""⟩ =
        stream_phase pf quiet (some 3) "wb" [[9, 9, 9]]
          (dvBase cookie ⟨none, ⟨200, "OK", some 3, some "bytes", [[9, 9, 9]]⟩, ""⟩) := by
      simp [download_video, RANGE_NOT_SATISFIABLE, raises_for_status, initial_filemode]
    obtain ⟨-, -, h3⟩ := stream_phase_opens pf quiet (some 3) "wb" [[9, 9, 9]]
      (dvBase cookie ⟨none, ⟨200, "OK", some 3, some "bytes", [[9, 9, 9]]⟩, ""⟩)
      (by simp)
    rw [hred, h3]
    norm_num [CHUNK_SIZE]

/-- Witness for C6 at a concrete environment where the file is opened. -/
theorem C6_counter_requested_bytes_witness :
    (download_video "sid" ⟨80, "t"⟩ false true
        ⟨none, ⟨200, "OK", some 3, some "bytes", [[9, 9, 9]]⟩, ""⟩).writes =
      [[9, 9, 9]] :=
  (C6_counter_requested_bytes "sid" ⟨80, "t"⟩ false true
      ⟨none, ⟨200, "OK", some 3, some "bytes", [[9, 9, 9]]⟩, ""⟩).2.1 (by decide)

/-- C7: when the declared total is known, progress display is enabled and
the transfer runs to completion, `downloaded` is clamped to the total,
the one final progress line renders the fraction `1` — whose percent
field is exactly `100` — the repeating timer was started and cancelled,
and the trailing newline is emitted. -/
theorem C7_completion_renders_100 (cookie : String) (pf : ProgressFormatter) (force : Bool)
    (env : Env) (c : ℕ)
    (hc : env.resp.contentLength = some c)
    (hdone : (download_video cookie pf force false env).outcome = .completed) :
    (download_video cookie pf force false env).finalDownloaded = c ∧
    (download_video cookie pf force false env).finalProgressLine =
      some (pf.format_progress 1) ∧
    percent_str 1 = "100" ∧
    (download_video cookie pf force false env).timerStarted = true ∧
    (download_video cookie pf force false env).timerCancelled = true ∧
    (download_video cookie pf force false env).trailingNewline = true := by
  have hpc : percent_str 1 = "100" := percent_str_one
  simp only [download_video] at hdone ⊢
  rw [hc] at hdone ⊢
  split_ifs at hdone ⊢
  all_goals try (simp [dvBase] at hdone)
  all_goals by_cases hzero : c = 0
  all_goals try (subst hzero; simp [stream_phase] at hdone)
  all_goals
    have hcq : (c : ℚ) ≠ 0 := Nat.cast_ne_zero.mpr hzero
  all_goals rw [stream_phase_progress pf c _ _ _ hzero, div_self hcq]
  all_goals exact ⟨rfl, rfl, hpc, rfl, rfl, rfl⟩

/-- Witness for C7: a resumed transfer of total 10 bytes completing with
progress display on. -/
theorem C7_completion_renders_100_witness :
    (download_video "sid" ⟨20, "Lecture 1"⟩ false false
        ⟨some 5, ⟨206, "Partial Content", some 10, some "bytes", [[1], [2]]⟩,
         ""⟩).finalDownloaded = 10 ∧
    (download_video "sid" ⟨20, "Lecture 1"⟩ false false
        ⟨some 5, ⟨206, "Partial Content", some 10, some "bytes", [[1], [2]]⟩,
         ""⟩).finalProgressLine =
      some ((⟨20, "Lecture 1"⟩ : ProgressFormatter).format_progress 1) ∧
    percent_str 1 = "100" ∧
    (download_video "sid" ⟨20, "Lecture 1"⟩ false false
        ⟨some 5, ⟨206, "Partial Content", some 10, some "bytes", [[1], [2]]⟩,
         ""⟩).timerStarted = true ∧
    (download_video "sid" ⟨20, "Lecture 1"⟩ false false
        ⟨some 5, ⟨206, "Partial Content", some 10, some "bytes", [[1], [2]]⟩,
         ""⟩).timerCancelled = true ∧
    (download_video "sid" ⟨20, "Lecture 1"⟩ false false
        ⟨some 5, ⟨206, "Partial Content", some 10, some "bytes", [[1], [2]]⟩,
         ""⟩).trailingNewline = true :=
  C7_completion_renders_100 "sid" ⟨20, "Lecture 1"⟩ false
    ⟨some 5, ⟨206, "Partial Content", some 10, some "bytes", [[1], [2]]⟩, ""⟩ 10
    rfl (by decide)

end TUbeDl

namespace TUbeDl

/-! ### String length lemmas for the progress geometry -/

theorem str_len_append (s t : String) : (s ++ t).length = s.length + t.length := by
  cases s; cases t; simp [String.length, String.append]

theorem str_len_pyRepeat (c : Char) (n : ℤ) : (pyRepeat c n).length = n.toNat := by
  simp [pyRepeat, String.length]

theorem str_len_pySliceTo (s : String) (i : ℤ) (h : 0 ≤ i) :
    (pySliceTo s i).length = min i.toNat s.length := by
  simp only [pySliceTo, String.length, if_pos h, List.length_take]

theorem str_append_nil (s : String) : s ++ String.mk [] = s := by
  cases s; simp [String.append]

theorem pyInt_of_nonneg (q : ℚ) (h : 0 ≤ q) : pyInt q = ⌊q⌋ := if_pos h

theorem nat_repr_length_le (n : ℕ) (h : n ≤ 100) : (Nat.repr n).length ≤ 3 := by
  have hall : ∀ m : Fin 101, (Nat.repr m.val).length ≤ 3 := by decide
  exact hall ⟨n, by omega⟩

theorem int_toString_length_le (p : ℤ) (h0 : 0 ≤ p) (h1 : p ≤ 100) :
    (toString p).length ≤ 3 := by
  obtain ⟨n, rfl⟩ := Int.eq_ofNat_of_zero_le h0
  have h100 : n ≤ 100 := by exact_mod_cast h1
  exact nat_repr_length_le n h100

theorem pyRjust_length (w : ℕ) (s : String) (h : s.length ≤ w) :
    (pyRjust w s).length = w := by
  simp only [pyRjust, String.length, List.length_append, List.length_replicate] at h ⊢
  omega

/-- For a fraction in `[0,1]` the percent value `int(f * 100)` lies in
`[0,100]`, so its right-justified rendering is exactly 3 characters. -/
theorem percent_str_length (f : ℚ) (h0 : 0 ≤ f) (h1 : f ≤ 1) :
    (percent_str f).length = 3 := by
  have hm0 : (0 : ℚ) ≤ f * 100 := by positivity
  have hp : pyInt (f * 100) = ⌊f * 100⌋ := pyInt_of_nonneg _ hm0
  have hp0 : 0 ≤ pyInt (f * 100) := by
    rw [hp]
    exact Int.floor_nonneg.mpr hm0
  have hp1 : pyInt (f * 100) ≤ 100 := by
    rw [hp]
    have hle : f * 100 ≤ 100 := by nlinarith
    calc ⌊f * 100⌋ ≤ ⌊(100 : ℚ)⌋ := Int.floor_le_floor hle
    _ = 100 := by norm_num
  exact pyRjust_length 3 _ (int_toString_length_le _ hp0 hp1)

theorem hash_count_le (maxp : ℕ) (f : ℚ) (h0 : 0 ≤ f) (h1 : f ≤ 1) :
    hash_count maxp f ≤ maxp := by
  have hm0 : (0 : ℚ) ≤ (maxp : ℚ) * f := by positivity
  have hle : (maxp : ℚ) * f ≤ (maxp : ℚ) := by
    nlinarith [Nat.cast_nonneg (α := ℚ) maxp]
  have hfl : pyInt ((maxp : ℚ) * f) ≤ (maxp : ℤ) := by
    rw [pyInt_of_nonneg _ hm0]
    calc ⌊(maxp : ℚ) * f⌋ ≤ ⌊(maxp : ℚ)⌋ := Int.floor_le_floor hle
    _ = (maxp : ℤ) := Int.floor_natCast maxp
  unfold hash_count
  omega

theorem hash_add_dash (maxp : ℕ) (f : ℚ) (h0 : 0 ≤ f) (h1 : f ≤ 1) :
    hash_count maxp f + dash_count maxp f = maxp := by
  have h := hash_count_le maxp f h0 h1
  unfold dash_count
  omega

theorem progress_bar_length (maxp : ℕ) (f : ℚ) (h0 : 0 ≤ f) (h1 : f ≤ 1) :
    (progress_bar maxp f).length = maxp := by
  have h := hash_add_dash maxp f h0 h1
  simp [progress_bar, String.length]
  omega

theorem progress_field_length (maxp : ℕ) (f : ℚ) (h0 : 0 ≤ f) (h1 : f ≤ 1) :
    (progress_field maxp f).length = maxp + PROGRESS_OTHER_CHAR_COUNT := by
  rw [progress_field, str_len_append, str_len_append, str_len_append, str_len_append,
    progress_bar_length maxp f h0 h1, percent_str_length f h0 h1]
  simp [String.length, PROGRESS_OTHER_CHAR_COUNT]
  omega

theorem spaces_length (W : ℕ) : (spaces W).length = 2 + W % 2 := by
  rw [spaces, str_len_pyRepeat]
  omega

/-! ### Claim theorems: progress geometry -/

/-- C8 counterexample: at terminal width 20 the name field is 9 columns,
yet the 10-character title is stored unmodified — neither truncated with
an ellipsis nor padded to the field width — because the setter truncates
only when the length exceeds the field by more than 3.  The stored name
has length 10 ≠ 9, so the line is wider than the claimed geometry. -/
theorem C8_overflow_counterexample :
    name_size 20 = 9 ∧
    (ProgressFormatter.mk 20 "0123456789").storedName = "0123456789" ∧
    ¬((ProgressFormatter.mk 20 "0123456789").storedName.length = name_size 20) := by
  decide

/-- C8 (amended): for every terminal width `W ≥ 20`, title, and fraction
in `[0,1]`: the name and progress fields each measure `⌊W/2⌋ - 1`; a
title of at most the field width is right-padded with spaces to exactly
the field width; a title exceeding the field by 1 to 3 characters is
stored unchanged (neither truncated nor padded); a title exceeding it by
more than 3 is truncated with a trailing three-character ellipsis to
exactly the field width; the separator is 2 spaces for even `W` and 3
for odd `W`; and the rendered line length is the stored name's length
plus separator plus field width — constant across calls for a fixed
title and width, independent of the fraction. -/
theorem C8_padding_geometry (W : ℕ) (title : String) (f : ℚ)
    (hW : 20 ≤ W) (hf0 : 0 ≤ f) (hf1 : f ≤ 1) :
    (title.length ≤ name_size W →
      (ProgressFormatter.mk W title).storedName =
        title ++ pyRepeat ' ' ((name_size W : ℤ) - (title.length : ℤ)) ∧
      (ProgressFormatter.mk W title).storedName.length = name_size W) ∧
    (name_size W < title.length → title.length ≤ name_size W + 3 →
      (ProgressFormatter.mk W title).storedName = title) ∧
    (name_size W + 3 < title.length →
      (ProgressFormatter.mk W title).storedName =
        pySliceTo title ((name_size W : ℤ) - 3) ++ "..." ∧
      (ProgressFormatter.mk W title).storedName.length = name_size W) ∧
    (spaces W).length = 2 + W % 2 ∧
    ((ProgressFormatter.mk W title).format_progress f).length =
      (ProgressFormatter.mk W title).storedName.length + (2 + W % 2) + name_size W := by
  have hns : 9 ≤ name_size W := by
    unfold name_size
    omega
  have hstored : (ProgressFormatter.mk W title).storedName =
      set_name (name_size W) title := rfl
  refine ⟨?_, ?_, ?_, spaces_length W, ?_⟩
  · intro h
    have hcond : ¬((name_size W : ℤ) < (title.length : ℤ) - 3) := by omega
    rw [hstored, set_name, if_neg hcond]
    refine ⟨rfl, ?_⟩
    rw [str_len_append, str_len_pyRepeat]
    omega
  · intro h1 h2
    have hcond : ¬((name_size W : ℤ) < (title.length : ℤ) - 3) := by omega
    have hz : ((name_size W : ℤ) - (title.length : ℤ)).toNat = 0 := by omega
    rw [hstored, set_name, if_neg hcond, pyRepeat, hz]
    simpa using str_append_nil title
  · intro h
    have hcond : (name_size W : ℤ) < (title.length : ℤ) - 3 := by omega
    rw [hstored, set_name, if_pos hcond]
    refine ⟨rfl, ?_⟩
    rw [str_len_append, str_len_pySliceTo title _ (by omega)]
    have : ("..." : String).length = 3 := rfl
    rw [this]
    have hmin : ((name_size W : ℤ) - 3).toNat = name_size W - 3 := by omega
    rw [hmin]
    have : min (name_size W - 3) title.length = name_size W - 3 := by omega
    rw [this]
    omega
  · have hfield : (progress_field (max_progress W) f).length = name_size W := by
      rw [progress_field_length (max_progress W) f hf0 hf1]
      unfold max_progress PROGRESS_OTHER_CHAR_COUNT
      omega
    show (ProgressFormatter.format_progress _ f).length = _
    rw [ProgressFormatter.format_progress, str_len_append, str_len_append,
      spaces_length, hfield]

/-- Witness for C8 (amended) at width 20 with the 9-character title
`Lecture 1`, which is padded to exactly the 9-column name field. -/
theorem C8_padding_geometry_witness :
    (ProgressFormatter.mk 20 "Lecture 1").storedName =
      "Lecture 1" ++
        pyRepeat ' ' ((name_size 20 : ℤ) - (("Lecture 1" : String).length : ℤ)) ∧
    (ProgressFormatter.mk 20 "Lecture 1").storedName.length = name_size 20 :=
  (C8_padding_geometry 20 "Lecture 1" 0 (by norm_num) le_rfl zero_le_one).1 (by decide)

/-- C9: for every fraction in `[0,1]` (at the widths the spec considers),
the bar interior width is the progress-field width minus 7, the hash
count is `⌊bar_width * f⌋`, hashes plus dashes fill the bar exactly, the
percent renders right-justified in exactly 3 characters, and the field is
assembled as `[<hashes><dashes>] <pct>%`. -/
theorem C9_bar_geometry (W : ℕ) (f : ℚ) (hW : 20 ≤ W) (hf0 : 0 ≤ f) (hf1 : f ≤ 1) :
    (progress_bar (max_progress W) f).length = name_size W - PROGRESS_OTHER_CHAR_COUNT ∧
    hash_count (max_progress W) f = (⌊(max_progress W : ℚ) * f⌋).toNat ∧
    hash_count (max_progress W) f + dash_count (max_progress W) f = max_progress W ∧
    (percent_str f).length = 3 ∧
    progress_field (max_progress W) f =
      "[" ++ progress_bar (max_progress W) f ++ "] " ++ percent_str f ++ "%" := by
  refine ⟨?_, ?_, hash_add_dash _ f hf0 hf1, percent_str_length f hf0 hf1, rfl⟩
  · rw [progress_bar_length _ f hf0 hf1]
    rfl
  · unfold hash_count
    rw [pyInt_of_nonneg _ (by positivity)]

/-- Witness for C9 at width 20 and fraction 1/2. -/
theorem C9_bar_geometry_witness :
    (progress_bar (max_progress 20) (1 / 2)).length =
      name_size 20 - PROGRESS_OTHER_CHAR_COUNT ∧
    hash_count (max_progress 20) (1 / 2) = (⌊(max_progress 20 : ℚ) * (1 / 2)⌋).toNat ∧
    hash_count (max_progress 20) (1 / 2) + dash_count (max_progress 20) (1 / 2) =
      max_progress 20 ∧
    (percent_str (1 / 2)).length = 3 ∧
    progress_field (max_progress 20) (1 / 2) =
      "[" ++ progress_bar (max_progress 20) (1 / 2) ++ "] " ++ percent_str (1 / 2) ++ "%" :=
  C9_bar_geometry 20 (1 / 2) (by norm_num) (by norm_num) (by norm_num)

/-- C10: every per-item error is contained at the item boundary: each
video's trace is exactly the one its own environment determines
(independent of every other item), a failing item contributes exactly the
line `Error downloading "<title>": <reason>` to standard error, the loop
processes every video, and the exit code is 0 regardless of failures. -/
theorem C10_item_errors_contained (cookie : String) (tw : ℕ) (force quiet : Bool)
    (videos : List (String × Env)) :
    (main_loop cookie tw force quiet videos).2.1 =
      videos.map (fun v => download_video cookie ⟨tw, v.1⟩ force quiet v.2) ∧
    (main_loop cookie tw force quiet videos).1 =
      videos.filterMap (fun v =>
        match (download_video cookie ⟨tw, v.1⟩ force quiet v.2).outcome with
        | .failed e => some (error_line v.1 e)
        | _ => none) ∧
    (main_loop cookie tw force quiet videos).2.2 = 0 := by
  refine ⟨?_, ?_, rfl⟩
  · show (process_videos cookie tw force quiet videos).2 = _
    induction videos with
    | nil => rfl
    | cons v rest ih =>
      obtain ⟨title, env⟩ := v
      simp [process_videos, ih]
  · show (process_videos cookie tw force quiet videos).1 = _
    induction videos with
    | nil => rfl
    | cons v rest ih =>
      obtain ⟨title, env⟩ := v
      cases hout : (download_video cookie ⟨tw, title⟩ force quiet env).outcome <;>
        simp [process_videos, hout, ih, List.filterMap_cons]

end TUbeDl
